import Mathlib

/-!
Verification of the user-account API of `mentorship-backend`
(`app/api/resources/user.py`) against its specification.

The handlers in `user.py` are embedded as Lean functions.  Collaborators
that live outside the available source (the `UserDAO` data-access object,
the request validators, the JWT framework and the process configuration)
are passed in as explicit function parameters, or, where a claim is about
their behaviour, modelled from the specification; such definitions say so
in their doc comment.  Side effects (the verification-email call, the
invocation of the data-access layer) are recorded as explicit fields of
each handler's result, so that "the handler triggers the mailer" and
"the handler never reaches the DAO" become provable statements.

HTTP statuses are `Nat`s, timestamps are `Int` seconds, response bodies
are small inductive types mirroring the dictionaries built in the source.
-/

/-- A stored user record, as held by the credential store.  Field names
follow the source (`username`, `email`, `is_email_verified`); the
password hash is modelled as a string compared for equality. -/
structure StoredUser where
  id : Nat
  username : String
  email : String
  password : String
  name : String
  is_email_verified : Bool
deriving DecidableEq, Repr

/- Response-message constants used by the handlers.  The module
`app/utils/responses.py` is not among the available sources, so each
constant is modelled as a distinct opaque string literal bearing its own
name; the handlers only ever compare these values for identity. -/
namespace ResponseMessages

def USER_ID_IS_NOT_VALID : String := "USER_ID_IS_NOT_VALID"

def USER_DOES_NOT_EXIST : String := "USER_DOES_NOT_EXIST"

def USER_IS_NOT_REGISTERED_IN_THE_SYSTEM : String :=
  "USER_IS_NOT_REGISTERED_IN_THE_SYSTEM"

def EMAIL_ALREADY_CONFIRMED : String := "EMAIL_ALREADY_CONFIRMED"

def EMAIL_VERIFICATION_MESSAGE : String := "EMAIL_VERIFICATION_MESSAGE"

def USERNAME_FIELD_IS_MISSING : String := "USERNAME_FIELD_IS_MISSING"

/-- In the source this constant is the second component of a tuple,
accessed as `ResponseMessages.PASSWORD_FIELD_IS_MISSING[1]`. -/
def PASSWORD_FIELD_IS_MISSING_1 : String := "PASSWORD_FIELD_IS_MISSING"

def USERNAME_OR_PASSWORD_FIELD_IS_INCORRECTLY_FILLED_UP : String :=
  "USERNAME_OR_PASSWORD_FIELD_IS_INCORRECTLY_FILLED_UP"

def USER_HAS_NOT_VERIFIED_EMAIL_BEFORE_LOGIN : String :=
  "USER_HAS_NOT_VERIFIED_EMAIL_BEFORE_LOGIN"

end ResponseMessages

/-- Python truthiness of an optional string: `request.json.get(k, None)`
yields `None` when the key is absent, and `not x` is true both for
`None` and for the empty string. -/
def truthy : Option String → Bool
  | none => false
  | some s => !(s == "")

/-- Body of a login response: either an error dictionary
`{"message": msg}` or the success dictionary, which carries exactly an
`access_token` and an `expiry` timestamp. -/
inductive LoginBody where
  | message (msg : String)
  | token (access_token : String) (expiry : Int)
deriving DecidableEq, Repr

/-- A login response: body plus HTTP status. -/
structure LoginResponse where
  body : LoginBody
  status : Nat
deriving DecidableEq, Repr

/-- Embedding of `LoginUser.post` (`user.py`, lines 236-260).
`auth` stands for `DAO.authenticate`, `mk` for
`create_access_token(identity=...)`, `now` for `datetime.utcnow()` as a
unix timestamp and `ttl` for the configured
`JWT_ACCESS_TOKEN_EXPIRES` interval in seconds. -/
def loginUser (auth : String → String → Option StoredUser) (mk : Nat → String)
    (now ttl : Int) (username password : Option String) : LoginResponse :=
  if truthy username = false then
    ⟨.message ResponseMessages.USERNAME_FIELD_IS_MISSING, 400⟩
  else if truthy password = false then
    ⟨.message ResponseMessages.PASSWORD_FIELD_IS_MISSING_1, 400⟩
  else
    match auth (username.getD "") (password.getD "") with
    | none =>
      ⟨.message ResponseMessages.USERNAME_OR_PASSWORD_FIELD_IS_INCORRECTLY_FILLED_UP, 404⟩
    | some user =>
      if user.is_email_verified = false then
        ⟨.message ResponseMessages.USER_HAS_NOT_VERIFIED_EMAIL_BEFORE_LOGIN, 403⟩
      else
        ⟨.token (mk user.id) (now + ttl), 200⟩

/-- Modelled from the spec: `UserDAO.authenticate` is not among the
available sources.  Per the spec, the identifier may equal either the
username or the email — lookup tries both fields — and both a missing
record and a password mismatch yield the same failure (`none`). -/
def authenticate (store : List StoredUser) (ident pw : String) : Option StoredUser :=
  match store.find? (fun u => u.username == ident || u.email == ident) with
  | none => none
  | some u => if u.password == pw then some u else none

/-- Modelled from the spec: the process configuration is not among the
available sources.  The spec fixes the token TTL at one week
("The token is valid for 1 week", "expiry ≈ now+7days"), in seconds. -/
def JWT_ACCESS_TOKEN_EXPIRES : Int := 7 * 24 * 60 * 60

/-- Outcome of `DAO.confirm_registration`. -/
inductive ConfirmResult where
  | success
  | alreadyConfirmed
  | invalidToken
deriving DecidableEq, Repr

/-- Modelled from the spec: `UserDAO.confirm_registration` is not among
the available sources.  Per the spec (§4.4), the token is decoded to a
target user; a user already `Verified` is rejected with
`AlreadyConfirmed` and the store is left unchanged; otherwise the user's
`is_email_verified` flag is flipped to true and success is returned.
The function returns the updated store together with the outcome. -/
def confirm_registration (store : List StoredUser) (decode : String → Option Nat)
    (token : String) : List StoredUser × ConfirmResult :=
  match decode token with
  | none => (store, .invalidToken)
  | some uid =>
    match store.find? (fun u => u.id == uid) with
    | none => (store, .invalidToken)
    | some u =>
      if u.is_email_verified then (store, .alreadyConfirmed)
      else
        (store.map (fun v => if v.id == uid then { v with is_email_verified := true } else v),
         .success)

/-- An error dictionary produced by a request validator; the empty list
models the empty dict `{}` meaning "valid". -/
abbrev ValErrors := List (String × String)

/-- Result of a handler that either short-circuits on a validation error
(left: error dictionary plus status 400) or forwards the data-access
layer's result (right), recording whether the DAO was invoked. -/
structure PutOutcome (δ : Type) where
  response : Sum (ValErrors × Nat) δ
  daoCalled : Bool
deriving Repr

/-- Embedding of `MyUserProfile.put` (`user.py`, lines 88-101).
`validate` stands for `validate_update_profile_request_data` and
`update_user_profile` for `DAO.update_user_profile`. -/
def myUserProfile_put {α δ : Type} (validate : α → ValErrors)
    (update_user_profile : Nat → α → δ) (user_id : Nat) (data : α) : PutOutcome δ :=
  let is_valid := validate data
  if is_valid ≠ [] then ⟨Sum.inl (is_valid, 400), false⟩
  else ⟨Sum.inr (update_user_profile user_id data), true⟩

/-- Embedding of `ChangeUserPassword.put` (`user.py`, lines 124-133).
`validate` stands for `validate_new_password` and `change_password` for
`DAO.change_password`. -/
def changeUserPassword_put {α δ : Type} (validate : α → ValErrors)
    (change_password : Nat → α → δ) (user_id : Nat) (data : α) : PutOutcome δ :=
  let is_valid := validate data
  if is_valid ≠ [] then ⟨Sum.inl (is_valid, 400), false⟩
  else ⟨Sum.inr (change_password user_id data), true⟩

/-- Result of `UserRegister.post`: the response (validation error, or the
DAO's `(body, status)` result forwarded verbatim), whether the DAO was
invoked, and the `(name, email)` argument of the
`send_email_verification_message` call when one was made. -/
structure RegisterOutcome (β : Type) where
  response : Sum (ValErrors × Nat) (β × Nat)
  daoCalled : Bool
  emailSent : Option (String × String)
deriving Repr

/-- Embedding of `UserRegister.post` (`user.py`, lines 159-176).
`validate` stands for `validate_user_registration_request_data` and
`create_user` for `DAO.create_user`, which returns a `(body, status)`
pair.  The source guards the mailer call with `result[1] is 200`; the
status is a small integer, which CPython interns, so for the literal
`200` the identity comparison coincides with equality and is modelled
as `= 200`. -/
def userRegister_post {α β : Type} (validate : α → ValErrors)
    (create_user : α → β × Nat) (name email : α → String) (data : α) :
    RegisterOutcome β :=
  let is_valid := validate data
  if is_valid ≠ [] then ⟨Sum.inl (is_valid, 400), false, none⟩
  else
    let result := create_user data
    ⟨Sum.inr result, true,
      if result.2 = 200 then some (name data, email data) else none⟩

/-- Result of `UserResendEmailConfirmation.post`: the response
(validation error, or `(message, status)`), and the `(name, email)`
argument of the mailer call when one was made. -/
structure ResendOutcome where
  response : Sum (ValErrors × Nat) (String × Nat)
  emailSent : Option (String × String)
deriving DecidableEq, Repr

/-- Embedding of `UserResendEmailConfirmation.post` (`user.py`,
lines 195-214).  `validate` stands for
`validate_resend_email_request_data`, `get_user_by_email` for
`DAO.get_user_by_email` and `email` for the `data['email']` access. -/
def userResendEmailConfirmation_post {α : Type} (validate : α → ValErrors)
    (get_user_by_email : String → Option StoredUser) (email : α → String) (data : α) :
    ResendOutcome :=
  let is_valid := validate data
  if is_valid ≠ [] then ⟨Sum.inl (is_valid, 400), none⟩
  else
    match get_user_by_email (email data) with
    | none => ⟨Sum.inr (ResponseMessages.USER_IS_NOT_REGISTERED_IN_THE_SYSTEM, 404), none⟩
    | some user =>
      if user.is_email_verified then
        ⟨Sum.inr (ResponseMessages.EMAIL_ALREADY_CONFIRMED, 403), none⟩
      else
        ⟨Sum.inr (ResponseMessages.EMAIL_VERIFICATION_MESSAGE, 200), some (user.name, email data)⟩

/-- A routed path parameter as Python sees it: an `int` or a `str`. -/
inductive PyParam where
  | int (n : Int)
  | str (s : String)
deriving DecidableEq, Repr

/-- Embedding of `OtherUser.validate_param` (`user.py`, lines 61-63):
`isinstance(user_id, int)`. -/
def validate_param : PyParam → Bool
  | .int _ => true
  | .str _ => false

/-- The integer value of a parameter; only consulted by `otherUser_get`
after `validate_param` has accepted it, so the `str` branch is dead. -/
def param_int : PyParam → Int
  | .int n => n
  | .str _ => 0

/-- Response of `OtherUser.get`: an error dictionary `{"message": ...}`
or the marshalled public user model, each with its HTTP status. -/
inductive GetUserResponse (μ : Type) where
  | message (msg : String) (status : Nat)
  | user (body : μ) (status : Nat)
deriving DecidableEq, Repr

/-- The HTTP status of a `GetUserResponse`. -/
def GetUserResponse.status {μ : Type} : GetUserResponse μ → Nat
  | .message _ s => s
  | .user _ s => s

/-- Embedding of `OtherUser.get` (`user.py`, lines 47-59).  `get_user`
stands for `DAO.get_user` and `marshal` for
`marshal(·, public_user_api_model)`. -/
def otherUser_get {μ : Type} (get_user : Int → Option StoredUser)
    (marshal : StoredUser → μ) (user_id : PyParam) : GetUserResponse μ :=
  if validate_param user_id = false then
    .message ResponseMessages.USER_ID_IS_NOT_VALID 400
  else
    match get_user (param_int user_id) with
    | none => .message ResponseMessages.USER_DOES_NOT_EXIST 404
    | some requested_user => .user (marshal requested_user) 201

/-! Concrete demonstration data, used by the witness theorems. -/

/-- A verified demo user. -/
def aliceV : StoredUser := ⟨1, "alice", "a@x.com", "pw", "Alice", true⟩

/-- An unverified demo user. -/
def bobU : StoredUser := ⟨2, "bob", "b@x.com", "pw", "Bob", false⟩

/-- A demo credential store. -/
def demoStore : List StoredUser := [aliceV, bobU]

/-- A demo authenticator over `demoStore`. -/
def demoAuth : String → String → Option StoredUser := authenticate demoStore

/-- A demo token issuer. -/
def demoMk : Nat → String := fun _ => "tok"

/-- C1: for every login request the handler checks, in order: missing
username or password (400), authenticator rejection (404), unverified
email despite correct credentials (403); otherwise it returns a token
bound to the user id together with the absolute expiry timestamp
(status 200). -/
theorem login_workflow_checks_in_order
    (auth : String → String → Option StoredUser) (mk : Nat → String)
    (now ttl : Int) (username password : Option String) :
    (truthy username = false →
      loginUser auth mk now ttl username password =
        ⟨.message ResponseMessages.USERNAME_FIELD_IS_MISSING, 400⟩) ∧
    (truthy username = true → truthy password = false →
      loginUser auth mk now ttl username password =
        ⟨.message ResponseMessages.PASSWORD_FIELD_IS_MISSING_1, 400⟩) ∧
    (truthy username = true → truthy password = true →
      auth (username.getD "") (password.getD "") = none →
      loginUser auth mk now ttl username password =
        ⟨.message ResponseMessages.USERNAME_OR_PASSWORD_FIELD_IS_INCORRECTLY_FILLED_UP, 404⟩) ∧
    (∀ u : StoredUser, truthy username = true → truthy password = true →
      auth (username.getD "") (password.getD "") = some u →
      u.is_email_verified = false →
      loginUser auth mk now ttl username password =
        ⟨.message ResponseMessages.USER_HAS_NOT_VERIFIED_EMAIL_BEFORE_LOGIN, 403⟩) ∧
    (∀ u : StoredUser, truthy username = true → truthy password = true →
      auth (username.getD "") (password.getD "") = some u →
      u.is_email_verified = true →
      loginUser auth mk now ttl username password =
        ⟨.token (mk u.id) (now + ttl), 200⟩) := by
  refine ⟨?_, ?_, ?_, ?_, ?_⟩ <;> intros <;> simp_all [loginUser]

/-- Witness for C1: each of the five branches reached on the demo data. -/
theorem login_workflow_checks_in_order_witness :
    (loginUser demoAuth demoMk 0 5 (some "") (some "pw") =
      ⟨.message ResponseMessages.USERNAME_FIELD_IS_MISSING, 400⟩) ∧
    (loginUser demoAuth demoMk 0 5 (some "alice") none =
      ⟨.message ResponseMessages.PASSWORD_FIELD_IS_MISSING_1, 400⟩) ∧
    (loginUser demoAuth demoMk 0 5 (some "zed") (some "pw") =
      ⟨.message ResponseMessages.USERNAME_OR_PASSWORD_FIELD_IS_INCORRECTLY_FILLED_UP, 404⟩) ∧
    (loginUser demoAuth demoMk 0 5 (some "bob") (some "pw") =
      ⟨.message ResponseMessages.USER_HAS_NOT_VERIFIED_EMAIL_BEFORE_LOGIN, 403⟩) ∧
    (loginUser demoAuth demoMk 0 5 (some "alice") (some "pw") =
      ⟨.token "tok" 5, 200⟩) := by
  refine ⟨?_, ?_, ?_, ?_, ?_⟩
  · exact (login_workflow_checks_in_order demoAuth demoMk 0 5 (some "") (some "pw")).1
      (by decide)
  · exact (login_workflow_checks_in_order demoAuth demoMk 0 5 (some "alice") none).2.1
      (by decide) (by decide)
  · exact (login_workflow_checks_in_order demoAuth demoMk 0 5 (some "zed") (some "pw")).2.2.1
      (by decide) (by decide) (by decide)
  · exact (login_workflow_checks_in_order demoAuth demoMk 0 5 (some "bob")
      (some "pw")).2.2.2.1 bobU (by decide) (by decide) (by decide) (by decide)
  · exact (login_workflow_checks_in_order demoAuth demoMk 0 5 (some "alice")
      (some "pw")).2.2.2.2 aliceV (by decide) (by decide) (by decide) (by decide)

/-- C9: a present-but-empty username or password is treated exactly like
an absent one: the handler returns the corresponding missing-field error
with status 400, the result does not depend on the authenticator (so the
authenticator is never consulted), and when both fields are empty the
username-missing error wins. -/
theorem login_empty_fields_rejected_before_auth
    (auth auth2 : String → String → Option StoredUser) (mk mk2 : Nat → String)
    (now now2 ttl ttl2 : Int) (p : Option String) :
    (loginUser auth mk now ttl (some "") p =
      ⟨.message ResponseMessages.USERNAME_FIELD_IS_MISSING, 400⟩) ∧
    (loginUser auth mk now ttl (some "") p = loginUser auth2 mk2 now2 ttl2 (some "") p) ∧
    (loginUser auth mk now ttl (some "") p = loginUser auth mk now ttl none p) ∧
    (∀ u : Option String, truthy u = true →
      loginUser auth mk now ttl u (some "") =
        ⟨.message ResponseMessages.PASSWORD_FIELD_IS_MISSING_1, 400⟩ ∧
      loginUser auth mk now ttl u (some "") = loginUser auth2 mk2 now2 ttl2 u (some "") ∧
      loginUser auth mk now ttl u (some "") = loginUser auth mk now ttl u none) ∧
    (loginUser auth mk now ttl (some "") (some "") =
      ⟨.message ResponseMessages.USERNAME_FIELD_IS_MISSING, 400⟩) := by
  refine ⟨by simp [loginUser, truthy], by simp [loginUser, truthy],
    by simp [loginUser, truthy], ?_, by simp [loginUser, truthy]⟩
  intro u hu
  have hp : truthy (some "") = false := by decide
  have hn : truthy none = false := by decide
  refine ⟨?_, ?_, ?_⟩ <;> simp [loginUser, hu, hp, hn]

/-- Witness for C9 at concrete inputs, including the all-empty case. -/
theorem login_empty_fields_rejected_before_auth_witness :
    (loginUser demoAuth demoMk 0 5 (some "") (some "pw") =
      ⟨.message ResponseMessages.USERNAME_FIELD_IS_MISSING, 400⟩) ∧
    (loginUser demoAuth demoMk 0 5 (some "alice") (some "") =
      ⟨.message ResponseMessages.PASSWORD_FIELD_IS_MISSING_1, 400⟩) ∧
    (loginUser demoAuth demoMk 0 5 (some "") (some "") =
      ⟨.message ResponseMessages.USERNAME_FIELD_IS_MISSING, 400⟩) := by
  refine ⟨?_, ?_, ?_⟩
  · exact (login_empty_fields_rejected_before_auth demoAuth demoAuth demoMk demoMk
      0 0 5 5 (some "pw")).1
  · exact ((login_empty_fields_rejected_before_auth demoAuth demoAuth demoMk demoMk
      0 0 5 5 (some "")).2.2.2.1 (some "alice") (by decide)).1
  · exact (login_empty_fields_rejected_before_auth demoAuth demoAuth demoMk demoMk
      0 0 5 5 (some "")).2.2.2.2

/-- C6: a successful login returns, with status 200, a body consisting
of exactly an access token and an expiry timestamp, and the expiry
equals the current time plus the configured TTL, which is seven days
(604800 seconds). -/
theorem login_success_body_token_and_expiry
    (auth : String → String → Option StoredUser) (mk : Nat → String) (now : Int)
    (username password : Option String) (u : StoredUser)
    (hu : truthy username = true) (hp : truthy password = true)
    (hauth : auth (username.getD "") (password.getD "") = some u)
    (hver : u.is_email_verified = true) :
    loginUser auth mk now JWT_ACCESS_TOKEN_EXPIRES username password =
      ⟨.token (mk u.id) (now + JWT_ACCESS_TOKEN_EXPIRES), 200⟩ ∧
    now + JWT_ACCESS_TOKEN_EXPIRES = now + 604800 := by
  constructor
  · simp [loginUser, hu, hp, hauth, hver]
  · norm_num [JWT_ACCESS_TOKEN_EXPIRES]

/-- Witness for C6: Alice logs in on the demo store. -/
theorem login_success_body_token_and_expiry_witness :
    loginUser demoAuth demoMk 1000 JWT_ACCESS_TOKEN_EXPIRES
      (some "alice") (some "pw") = ⟨.token "tok" (1000 + JWT_ACCESS_TOKEN_EXPIRES), 200⟩ ∧
    (1000 : Int) + JWT_ACCESS_TOKEN_EXPIRES = 1000 + 604800 :=
  login_success_body_token_and_expiry demoAuth demoMk 1000 (some "alice") (some "pw")
    aliceV (by decide) (by decide) (by decide) (by decide)

/-- C3: a failing login with an identifier matching no stored user and a
failing login with a known identifier but a wrong password produce the
same response: the same InvalidCredentials message with status 404, so
the two causes are indistinguishable from the response. -/
theorem login_failure_causes_indistinguishable
    (store : List StoredUser) (mk : Nat → String) (now ttl : Int)
    (id1 pw1 id2 pw2 : String) (u : StoredUser)
    (h1 : id1 ≠ "") (hp1 : pw1 ≠ "") (h2 : id2 ≠ "") (hp2 : pw2 ≠ "")
    (hnone : store.find? (fun v => v.username == id1 || v.email == id1) = none)
    (hfind : store.find? (fun v => v.username == id2 || v.email == id2) = some u)
    (hwrong : u.password ≠ pw2) :
    loginUser (authenticate store) mk now ttl (some id1) (some pw1) =
      ⟨.message ResponseMessages.USERNAME_OR_PASSWORD_FIELD_IS_INCORRECTLY_FILLED_UP, 404⟩ ∧
    loginUser (authenticate store) mk now ttl (some id2) (some pw2) =
      ⟨.message ResponseMessages.USERNAME_OR_PASSWORD_FIELD_IS_INCORRECTLY_FILLED_UP, 404⟩ ∧
    loginUser (authenticate store) mk now ttl (some id1) (some pw1) =
      loginUser (authenticate store) mk now ttl (some id2) (some pw2) := by
  have e1 : loginUser (authenticate store) mk now ttl (some id1) (some pw1) =
      ⟨.message ResponseMessages.USERNAME_OR_PASSWORD_FIELD_IS_INCORRECTLY_FILLED_UP, 404⟩ := by
    simp [loginUser, truthy, h1, hp1, authenticate, hnone]
  have e2 : loginUser (authenticate store) mk now ttl (some id2) (some pw2) =
      ⟨.message ResponseMessages.USERNAME_OR_PASSWORD_FIELD_IS_INCORRECTLY_FILLED_UP, 404⟩ := by
    simp [loginUser, truthy, h2, hp2, authenticate, hfind, hwrong]
  exact ⟨e1, e2, e1.trans e2.symm⟩

/-- Witness for C3: unknown identifier "zed" versus Alice with a wrong
password on the demo store. -/
theorem login_failure_causes_indistinguishable_witness :
    loginUser (authenticate demoStore) demoMk 0 5 (some "zed") (some "pw") =
      ⟨.message ResponseMessages.USERNAME_OR_PASSWORD_FIELD_IS_INCORRECTLY_FILLED_UP, 404⟩ ∧
    loginUser (authenticate demoStore) demoMk 0 5 (some "alice") (some "wrong") =
      ⟨.message ResponseMessages.USERNAME_OR_PASSWORD_FIELD_IS_INCORRECTLY_FILLED_UP, 404⟩ ∧
    loginUser (authenticate demoStore) demoMk 0 5 (some "zed") (some "pw") =
      loginUser (authenticate demoStore) demoMk 0 5 (some "alice") (some "wrong") :=
  login_failure_causes_indistinguishable demoStore demoMk 0 5 "zed" "pw" "alice" "wrong"
    aliceV (by decide) (by decide) (by decide) (by decide) (by decide) (by decide) (by decide)

/-- Finding a user by id in the store after setting that id's
`is_email_verified` flag yields the updated record. -/
lemma find_map_set_verified (l : List StoredUser) (uid : Nat) (u : StoredUser)
    (h : l.find? (fun v => v.id == uid) = some u) :
    (l.map (fun v => if v.id == uid then { v with is_email_verified := true } else v)).find?
      (fun v => v.id == uid) = some { u with is_email_verified := true } := by
  induction l with
  | nil => simp at h
  | cons a l ih =>
    by_cases ha : a.id = uid
    · rw [List.find?_cons_of_pos _ (by simp [ha])] at h
      cases h
      simp only [List.map_cons, ha]
      rw [List.find?_cons_of_pos _ (by simp [ha])]
      simp
    · rw [List.find?_cons_of_neg _ (by simp [ha])] at h
      simp only [List.map_cons]
      rw [if_neg (by simp [ha]), List.find?_cons_of_neg _ (by simp [ha])]
      exact ih h

/-- Every record with the targeted id is verified after the update. -/
lemma mem_map_set_verified (l : List StoredUser) (uid : Nat) (v : StoredUser)
    (hv : v ∈ l.map (fun w => if w.id == uid then { w with is_email_verified := true } else w))
    (hid : v.id = uid) : v.is_email_verified = true := by
  rcases List.mem_map.1 hv with ⟨w, _, rfl⟩
  by_cases h : w.id = uid
  · simp [h]
  · rw [if_neg (by simp [h])] at hid ⊢
    exact absurd hid h

/-- C2: confirming with a valid token for an unverified user succeeds
and flips that user's state to verified; a second confirmation with any
valid token for the same user is rejected with AlreadyConfirmed and
leaves the store unchanged, so the transition fires exactly once and is
one-way. -/
theorem confirm_email_one_way
    (store : List StoredUser) (decode : String → Option Nat) (t1 t2 : String)
    (uid : Nat) (u : StoredUser)
    (h1 : decode t1 = some uid) (h2 : decode t2 = some uid)
    (hfind : store.find? (fun v => v.id == uid) = some u)
    (hunv : u.is_email_verified = false) :
    (confirm_registration store decode t1).2 = .success ∧
    (∀ v ∈ (confirm_registration store decode t1).1, v.id = uid →
      v.is_email_verified = true) ∧
    confirm_registration (confirm_registration store decode t1).1 decode t2 =
      ((confirm_registration store decode t1).1, .alreadyConfirmed) := by
  have hstep : confirm_registration store decode t1 =
      (store.map (fun v => if v.id == uid then { v with is_email_verified := true } else v),
       .success) := by
    simp [confirm_registration, h1, hfind, hunv]
  refine ⟨by rw [hstep], ?_, ?_⟩
  · rw [hstep]
    intro v hv hid
    exact mem_map_set_verified store uid v hv hid
  · rw [hstep]
    simp only [confirm_registration, h2]
    rw [find_map_set_verified store uid u hfind]
    simp

/-- A demo verification-token decoder: both demo tokens target Bob. -/
def demoDecode : String → Option Nat :=
  fun t => if t = "t1" then some 2 else if t = "t2" then some 2 else none

/-- Witness for C2: Bob is confirmed once, then rejected. -/
theorem confirm_email_one_way_witness :
    (confirm_registration [bobU] demoDecode "t1").2 = .success ∧
    confirm_registration (confirm_registration [bobU] demoDecode "t1").1 demoDecode "t2" =
      ((confirm_registration [bobU] demoDecode "t1").1, .alreadyConfirmed) := by
  have h := confirm_email_one_way [bobU] demoDecode "t1" "t2" 2 bobU
    (by decide) (by decide) (by decide) (by decide)
  exact ⟨h.1, h.2.2⟩

/-- C4: after shape validation passes, the verification email is sent
exactly when the create-user call returns status 200 (the source's
`result[1] is 200` test, which for the interned literal 200 coincides
with equality), and the DAO result is returned verbatim either way. -/
theorem register_sends_email_iff_create_succeeds {α β : Type}
    (validate : α → ValErrors) (create_user : α → β × Nat)
    (name email : α → String) (data : α) (hvalid : validate data = []) :
    ((userRegister_post validate create_user name email data).emailSent =
        some (name data, email data) ↔ (create_user data).2 = 200) ∧
    ((userRegister_post validate create_user name email data).emailSent = none ↔
      ¬ (create_user data).2 = 200) ∧
    (userRegister_post validate create_user name email data).response =
      Sum.inr (create_user data) := by
  by_cases h : (create_user data).2 = 200 <;>
    simp [userRegister_post, hvalid, h]

/-- Witness for C4: a 200 creation sends the email, a 400 one does not. -/
theorem register_sends_email_iff_create_succeeds_witness :
    (userRegister_post (fun _ : Unit => ([] : ValErrors)) (fun _ => ("created", 200))
      (fun _ => "Alice") (fun _ => "a@x.com") ()).emailSent = some ("Alice", "a@x.com") ∧
    (userRegister_post (fun _ : Unit => ([] : ValErrors)) (fun _ => ("dup", 400))
      (fun _ => "Alice") (fun _ => "a@x.com") ()).emailSent = none := by
  constructor
  · exact (register_sends_email_iff_create_succeeds (fun _ : Unit => ([] : ValErrors))
      (fun _ => ("created", 200)) (fun _ => "Alice") (fun _ => "a@x.com") () rfl).1.mpr rfl
  · exact (register_sends_email_iff_create_succeeds (fun _ : Unit => ([] : ValErrors))
      (fun _ => ("dup", 400)) (fun _ => "Alice") (fun _ => "a@x.com") () rfl).2.1.mpr
      (by decide)

/-- A demo email lookup over the demo store. -/
def demoGetByEmail : String → Option StoredUser :=
  fun e => demoStore.find? (fun u => u.email == e)

/-- C5: for a resend-verification request of valid shape, the handler
returns 404 UnknownEmail when no user has the email, 403 AlreadyVerified
when the user is already verified, and otherwise triggers the mailer for
that user and returns 200, in that order. -/
theorem resend_email_checks_in_order {α : Type} (validate : α → ValErrors)
    (get_user_by_email : String → Option StoredUser) (email : α → String) (data : α)
    (hvalid : validate data = []) :
    (get_user_by_email (email data) = none →
      userResendEmailConfirmation_post validate get_user_by_email email data =
        ⟨Sum.inr (ResponseMessages.USER_IS_NOT_REGISTERED_IN_THE_SYSTEM, 404), none⟩) ∧
    (∀ u : StoredUser, get_user_by_email (email data) = some u →
      u.is_email_verified = true →
      userResendEmailConfirmation_post validate get_user_by_email email data =
        ⟨Sum.inr (ResponseMessages.EMAIL_ALREADY_CONFIRMED, 403), none⟩) ∧
    (∀ u : StoredUser, get_user_by_email (email data) = some u →
      u.is_email_verified = false →
      userResendEmailConfirmation_post validate get_user_by_email email data =
        ⟨Sum.inr (ResponseMessages.EMAIL_VERIFICATION_MESSAGE, 200),
          some (u.name, email data)⟩) := by
  refine ⟨?_, ?_, ?_⟩ <;> intros <;>
    simp_all [userResendEmailConfirmation_post]

/-- Witness for C5: the three branches on the demo store. -/
theorem resend_email_checks_in_order_witness :
    (userResendEmailConfirmation_post (fun _ : Unit => ([] : ValErrors)) demoGetByEmail
      (fun _ => "z@x.com") () =
        ⟨Sum.inr (ResponseMessages.USER_IS_NOT_REGISTERED_IN_THE_SYSTEM, 404), none⟩) ∧
    (userResendEmailConfirmation_post (fun _ : Unit => ([] : ValErrors)) demoGetByEmail
      (fun _ => "a@x.com") () =
        ⟨Sum.inr (ResponseMessages.EMAIL_ALREADY_CONFIRMED, 403), none⟩) ∧
    (userResendEmailConfirmation_post (fun _ : Unit => ([] : ValErrors)) demoGetByEmail
      (fun _ => "b@x.com") () =
        ⟨Sum.inr (ResponseMessages.EMAIL_VERIFICATION_MESSAGE, 200),
          some ("Bob", "b@x.com")⟩) := by
  refine ⟨?_, ?_, ?_⟩
  · exact (resend_email_checks_in_order (fun _ : Unit => ([] : ValErrors)) demoGetByEmail
      (fun _ => "z@x.com") () rfl).1 (by decide)
  · exact (resend_email_checks_in_order (fun _ : Unit => ([] : ValErrors)) demoGetByEmail
      (fun _ => "a@x.com") () rfl).2.1 aliceV (by decide) (by decide)
  · exact (resend_email_checks_in_order (fun _ : Unit => ([] : ValErrors)) demoGetByEmail
      (fun _ => "b@x.com") () rfl).2.2 bobU (by decide) (by decide)

/-- C8: when the shape validator rejects the payload of an
update-profile, change-password or registration request, the handler
returns the validator's error dictionary with status 400 and the
data-access layer is never invoked, so stored state is unchanged. -/
theorem validation_error_returns_400_without_dao {α β γ δ ε ζ : Type}
    (v1 : α → ValErrors) (upd : Nat → α → δ) (uid1 : Nat) (d1 : α)
    (v2 : β → ValErrors) (chg : Nat → β → ε) (uid2 : Nat) (d2 : β)
    (v3 : γ → ValErrors) (create : γ → ζ × Nat) (nm em : γ → String) (d3 : γ) :
    (v1 d1 ≠ [] →
      myUserProfile_put v1 upd uid1 d1 = ⟨Sum.inl (v1 d1, 400), false⟩) ∧
    (v2 d2 ≠ [] →
      changeUserPassword_put v2 chg uid2 d2 = ⟨Sum.inl (v2 d2, 400), false⟩) ∧
    (v3 d3 ≠ [] →
      userRegister_post v3 create nm em d3 = ⟨Sum.inl (v3 d3, 400), false, none⟩) := by
  refine ⟨?_, ?_, ?_⟩ <;> intro h <;>
    simp [myUserProfile_put, changeUserPassword_put, userRegister_post, h]

/-- Witness for C8: a failing validator on each of the three handlers. -/
theorem validation_error_returns_400_without_dao_witness :
    myUserProfile_put (fun _ : Unit => [("name", "invalid")]) (fun _ _ => "updated") 1 () =
      ⟨Sum.inl ([("name", "invalid")], 400), false⟩ ∧
    changeUserPassword_put (fun _ : Unit => [("password", "weak")]) (fun _ _ => "changed") 1 () =
      ⟨Sum.inl ([("password", "weak")], 400), false⟩ ∧
    userRegister_post (fun _ : Unit => [("email", "bad")]) (fun _ => ("x", 400))
      (fun _ => "n") (fun _ => "e") () =
      ⟨Sum.inl ([("email", "bad")], 400), false, none⟩ := by
  have h := validation_error_returns_400_without_dao
    (fun _ : Unit => [("name", "invalid")]) (fun _ _ => "updated") 1 ()
    (fun _ : Unit => [("password", "weak")]) (fun _ _ => "changed") 1 ()
    (fun _ : Unit => [("email", "bad")]) (fun _ => ("x", 400)) (fun _ => "n") (fun _ => "e") ()
  exact ⟨h.1 (by simp), h.2.1 (by simp), h.2.2 (by simp)⟩

/-- A demo user lookup by id: only user 1 (Alice) exists. -/
def demoGetUser : Int → Option StoredUser :=
  fun n => if n = 1 then some aliceV else none

/-- C7: a non-integer id parameter is rejected with 400 InvalidId, an
integer id with no matching user yields 404 NotFound, and otherwise the
marshalled public projection of the user is returned. -/
theorem otherUser_get_cases {μ : Type} (get_user : Int → Option StoredUser)
    (marshal : StoredUser → μ) (p : PyParam) :
    (validate_param p = false →
      otherUser_get get_user marshal p =
        .message ResponseMessages.USER_ID_IS_NOT_VALID 400) ∧
    (∀ n : Int, p = .int n → get_user n = none →
      otherUser_get get_user marshal p =
        .message ResponseMessages.USER_DOES_NOT_EXIST 404) ∧
    (∀ (n : Int) (u : StoredUser), p = .int n → get_user n = some u →
      otherUser_get get_user marshal p = .user (marshal u) 201) := by
  refine ⟨?_, ?_, ?_⟩
  · intro h
    simp [otherUser_get, h]
  · rintro n rfl h
    simp [otherUser_get, validate_param, param_int, h]
  · rintro n u rfl h
    simp [otherUser_get, validate_param, param_int, h]

/-- Witness for C7: the three branches on the demo lookup. -/
theorem otherUser_get_cases_witness :
    (otherUser_get demoGetUser StoredUser.name (.str "abc") =
      .message ResponseMessages.USER_ID_IS_NOT_VALID 400) ∧
    (otherUser_get demoGetUser StoredUser.name (.int 7) =
      .message ResponseMessages.USER_DOES_NOT_EXIST 404) ∧
    (otherUser_get demoGetUser StoredUser.name (.int 1) = .user "Alice" 201) := by
  refine ⟨?_, ?_, ?_⟩
  · exact (otherUser_get_cases demoGetUser StoredUser.name (.str "abc")).1 (by decide)
  · exact (otherUser_get_cases demoGetUser StoredUser.name (.int 7)).2.1 7 rfl (by decide)
  · exact (otherUser_get_cases demoGetUser StoredUser.name (.int 1)).2.2 1 aliceV rfl
      (by decide)

/-- C10: a successful get-user-by-id returns the marshalled public user
model with status 201, not 200. -/
theorem otherUser_success_status_201 {μ : Type} (get_user : Int → Option StoredUser)
    (marshal : StoredUser → μ) (n : Int) (u : StoredUser)
    (h : get_user n = some u) :
    otherUser_get get_user marshal (.int n) = .user (marshal u) 201 ∧
    (otherUser_get get_user marshal (.int n)).status = 201 ∧
    (otherUser_get get_user marshal (.int n)).status ≠ 200 := by
  have e : otherUser_get get_user marshal (.int n) = .user (marshal u) 201 := by
    simp [otherUser_get, validate_param, param_int, h]
  refine ⟨e, ?_, ?_⟩
  · rw [e]
    rfl
  · rw [e]
    simp [GetUserResponse.status]

/-- Witness for C10: fetching Alice by id 1. -/
theorem otherUser_success_status_201_witness :
    otherUser_get demoGetUser StoredUser.name (.int 1) = .user "Alice" 201 ∧
    (otherUser_get demoGetUser StoredUser.name (.int 1)).status = 201 ∧
    (otherUser_get demoGetUser StoredUser.name (.int 1)).status ≠ 200 :=
  otherUser_success_status_201 demoGetUser StoredUser.name 1 aliceV (by decide)
